import Mathlib

/-!
Verification of the renderapis repository core: the database connection
manager (src/database, concatenated into src/middleware/index.js in this
snapshot), the HTTP gate / error-mapping middleware (src/middleware),
the Project schema (models/Project.js), and the health route
(src/routes/api.js).  Definitions are shallow embeddings of the
JavaScript source; the CRUD handler file routes/projects.js is absent
from the snapshot, so those handlers are modelled from the spec where
noted.
-/

namespace RenderAPIs

/-- Application configuration (src/config/index.js): `environment` is
NODE_ENV (default "development") and drives the isDevelopment /
isProduction flags computed at module load. -/
structure Config where
  env : String
deriving Repr, DecidableEq

/-- `config.isDevelopment` = (environment === 'development'). -/
def Config.isDevelopment (c : Config) : Bool := c.env == "development"

/-- `config.isProduction` = (environment === 'production'). -/
def Config.isProduction (c : Config) : Bool := c.env == "production"

def devConfig : Config := ⟨"development"⟩

def prodConfig : Config := ⟨"production"⟩

/-- The mutable fields of the `DatabaseManager` singleton
(src/database): `isConnected`, `connectionState`, `connectionAttempts`. -/
structure DBState where
  isConnected : Bool
  connectionState : String
  connectionAttempts : Nat
deriving Repr, DecidableEq

/-- Constructor state: `false`, `'disconnected'`, `0`. -/
def initialDBState : DBState := ⟨false, "disconnected", 0⟩

/-- `this.maxRetries = 5`. -/
def maxRetries : Nat := 5

/-- `this.retryDelay = 5000` milliseconds. -/
def retryDelay : Nat := 5000

/-- `DatabaseManager.scheduleReconnection`: when the attempt counter has
reached `maxRetries` it logs the terminal warning and returns without
scheduling anything; otherwise it increments the counter and sets a
`setTimeout` for `retryDelay` ms that re-invokes `connect()`.  The second
component is the delay of the timer that was set, `none` when the
manager gave up. -/
def scheduleReconnection (s : DBState) : DBState × Option Nat :=
  if s.connectionAttempts ≥ maxRetries then (s, none)
  else ({ s with connectionAttempts := s.connectionAttempts + 1 }, some retryDelay)

/-- Outcome of the underlying `mongoose.connect` call (external driver). -/
inductive ConnectOutcome
  | success
  | failure
deriving Repr, DecidableEq

/-- Result of one `connect()` call: the state afterwards, whether the
catch block invoked `scheduleReconnection`, and the delay of the retry
timer that was actually set (if any). -/
structure ConnectResult where
  state : DBState
  schedulerInvoked : Bool
  retryTimer : Option Nat
deriving Repr, DecidableEq

/-- `DatabaseManager.connect`: on success the driver fires the
`connected` event whose handler sets the flag, the state `'connected'`
and resets the attempt counter; on failure the catch block sets the flag
false and the state `'error'`, then — only when `config.isDevelopment`
is false — invokes `scheduleReconnection`.  The function is total: every
outcome of the driver call is captured into state, nothing is rethrown. -/
def connect (cfg : Config) (o : ConnectOutcome) (s : DBState) : ConnectResult :=
  match o with
  | ConnectOutcome.success => ⟨⟨true, "connected", 0⟩, false, none⟩
  | ConnectOutcome.failure =>
    let s1 : DBState := { s with isConnected := false, connectionState := "error" }
    if cfg.isDevelopment then ⟨s1, false, none⟩
    else
      let r := scheduleReconnection s1
      ⟨r.1, true, r.2⟩

/-- Outcome of `mongoose.connection.close()` (external driver). -/
inductive CloseOutcome
  | ok
  | err
deriving Repr, DecidableEq

/-- The `disconnected` event handler registered in
`setupEventHandlers`: flag false, state `'disconnected'`, and — in
production while attempts are below the maximum — a reconnection is
scheduled.  Second component: retry timer delay, if one was set. -/
def onDisconnectedEvent (cfg : Config) (s : DBState) : DBState × Option Nat :=
  let s1 : DBState := { s with isConnected := false, connectionState := "disconnected" }
  if cfg.isProduction ∧ s1.connectionAttempts < maxRetries then
    scheduleReconnection s1
  else (s1, none)

/-- `DatabaseManager.disconnect`: the method body is only
`try { await mongoose.connection.close() } catch (e) { log }`.  It never
assigns the state fields itself; on a successful close the driver fires
the `disconnected` event (handled above), while on a close error the
catch block merely logs, leaving every field unchanged. -/
def disconnect (cfg : Config) (o : CloseOutcome) (s : DBState) : DBState × Option Nat :=
  match o with
  | CloseOutcome.ok => onDisconnectedEvent cfg s
  | CloseOutcome.err => (s, none)

/-- Drive a freshly constructed manager through `n` consecutive
connection failures: component 1 is the manager state, component 2
whether a `connect()` invocation is pending (the caller-issued initial
call, or a scheduled retry), component 3 how many `connect()` calls have
executed so far.  Each failure delivery consumes the pending call. -/
def failRun (cfg : Config) : Nat → DBState × Bool × Nat
  | 0 => (initialDBState, true, 0)
  | n+1 =>
    let t := failRun cfg n
    if t.2.1 then
      let r := connect cfg ConnectOutcome.failure t.1
      (r.state, r.retryTimer.isSome, t.2.2 + 1)
    else t

/-- `DatabaseManager.isHealthy`: returns false immediately when the flag
is down, otherwise reports whether the ping probe succeeded; a probe
error is caught and reported as false, never propagated. -/
def isHealthy (s : DBState) (pingOk : Bool) : Bool :=
  if !s.isConnected then false else pingOk

/-- The `database` part of the GET /health response body. -/
structure HealthDB where
  connected : Bool
  healthy : Bool
  state : String
deriving Repr, DecidableEq

/-- A GET /health response: HTTP status, the `success` flag, and the
database report (absent on the catch branch). -/
structure HealthResponse where
  status : Nat
  success : Bool
  database : Option HealthDB
deriving Repr, DecidableEq

/-- GET /health handler (src/routes/api.js): builds the report from
`getStatus()` / `isHealthy()` and replies with `res.json` (HTTP 200,
`success: true`) for every connection state; only the catch branch —
reachable only if building the report itself throws, modelled by the
`buildThrows` flag — replies 500 with `success: false`. -/
def healthHandler (s : DBState) (pingOk : Bool) (buildThrows : Bool) : HealthResponse :=
  if buildThrows then ⟨500, false, none⟩
  else ⟨200, true, some ⟨s.isConnected, isHealthy s pingOk, s.connectionState⟩⟩

/-! ## JSON-ish documents and the Project schema -/

/-- A JSON value as used by the Project resource: strings, arrays of
strings (technologies) and numbers (timestamps, with dates modelled as
milliseconds). -/
inductive JValue
  | str : String → JValue
  | strList : List String → JValue
  | num : Nat → JValue
deriving Repr, DecidableEq

/-- A request body / stored document: an association list of fields. -/
abbrev Payload := List (String × JValue)

abbrev Doc := List (String × JValue)

/-- First-match field lookup (JavaScript object property access). -/
def lookupField : Payload → String → Option JValue
  | [], _ => none
  | kv :: rest, k => if kv.1 = k then some kv.2 else lookupField rest k

/-- Set a field to a value, replacing the existing binding of the key
or appending when absent (a `$set` on one path of a document; JavaScript
object keys are unique). -/
def setField : Doc → String → JValue → Doc
  | [], k, v => [(k, v)]
  | kv :: rest, k, v =>
    if kv.1 = k then (k, v) :: rest else kv :: setField rest k v

/-- Apply a sequence of field assignments in order. -/
def applySets : Doc → Payload → Doc
  | d, [] => d
  | d, kv :: rest => applySets (setField d kv.1 kv.2) rest

/-- JavaScript `String.prototype.trim` on the usual whitespace
characters, as invoked by the mongoose `trim: true` schema option. -/
def isJsWhitespace (c : Char) : Bool :=
  c == ' ' || c == '\t' || c == '\n' || c == '\r'

def jsTrim (s : String) : String :=
  String.mk (((s.data.dropWhile isJsWhitespace).reverse.dropWhile isJsWhitespace).reverse)

/-- Modelled from the spec: the field whitelist applied by the POST and
PUT handlers of the missing routes/projects.js — exactly the caller
fields of the schema in models/Project.js, excluding the system-managed
identifier and timestamps. -/
def allowedFields : List String :=
  ["name", "description", "technologies", "status",
   "startDate", "endDate", "repository", "liveUrl"]

/-- System-managed fields, set by storage and excluded from the whitelist. -/
def systemFields : List String := ["_id", "createdAt", "updatedAt"]

/-- Drop every request field that is not whitelisted (the sanitisation
step run before the repository is invoked). -/
def sanitize (p : Payload) : Payload :=
  p.filter (fun kv => allowedFields.contains kv.1)

/-- The `status` enum of models/Project.js. -/
def statusEnum : List String := ["planning", "in-progress", "completed", "on-hold"]

/-- Typed failure outcomes of a repository operation, mirroring the
error classes mongoose raises (ValidationError, CastError, missing
document, duplicate key). -/
inductive DbError
  | validationError (field : String)
  | castError (field : String)
  | notFound
  | duplicateKey
deriving Repr, DecidableEq

/-- Expected value shape of each whitelisted field under the schema of
models/Project.js. -/
def fieldTypeOk : String → JValue → Bool
  | "name", JValue.str _ => true
  | "description", JValue.str _ => true
  | "technologies", JValue.strList _ => true
  | "status", JValue.str _ => true
  | "startDate", JValue.num _ => true
  | "endDate", JValue.num _ => true
  | "repository", JValue.str _ => true
  | "liveUrl", JValue.str _ => true
  | _, _ => false

/-- First cast failure among the (already sanitised) request fields:
mongoose raises a CastError when a value cannot be cast to its schema
type. -/
def castCheck (q : Payload) : Option DbError :=
  match q.find? (fun kv => ! fieldTypeOk kv.1 kv.2) with
  | some kv => some (DbError.castError kv.1)
  | none => none

def optStr (q : Payload) (k : String) : Option String :=
  match lookupField q k with
  | some (JValue.str s) => some s
  | _ => none

def optStrList (q : Payload) (k : String) : Option (List String) :=
  match lookupField q k with
  | some (JValue.strList xs) => some xs
  | _ => none

def optNum (q : Payload) (k : String) : Option Nat :=
  match lookupField q k with
  | some (JValue.num n) => some n
  | _ => none

/-- An optional document entry: present fields become a one-entry
segment, absent optional fields are simply not stored. -/
def optEntry (k : String) : Option JValue → Doc
  | some v => [(k, v)]
  | none => []

/-- Modelled from the spec: the create path of the missing
routes/projects.js (whitelist, then `new Project(...)` + `save()`), with
the schema rules of models/Project.js: `name` and `description` required
and trimmed (empty after trim is rejected), `technologies` defaulting to
the empty list, `status` constrained to the enum and defaulting to
"planning", `startDate` defaulting to the creation time, and mongoose
`timestamps: true` setting `createdAt = updatedAt = now`.  `newId` is
the system-assigned ObjectId. -/
def createDoc (now : Nat) (newId : String) (p : Payload) : Except DbError Doc :=
  let q := sanitize p
  match castCheck q with
  | some e => Except.error e
  | none =>
    let name := jsTrim ((optStr q "name").getD "")
    let descr := jsTrim ((optStr q "description").getD "")
    let status := (optStr q "status").getD "planning"
    if name = "" then Except.error (DbError.validationError "name")
    else if descr = "" then Except.error (DbError.validationError "description")
    else if statusEnum.contains status = false then Except.error (DbError.validationError "status")
    else Except.ok (
      [("_id", JValue.str newId),
       ("name", JValue.str name),
       ("description", JValue.str descr),
       ("technologies", JValue.strList ((optStrList q "technologies").getD [])),
       ("status", JValue.str status),
       ("startDate", JValue.num ((optNum q "startDate").getD now)),
       ("createdAt", JValue.num now),
       ("updatedAt", JValue.num now)]
      ++ optEntry "endDate" ((optNum q "endDate").map JValue.num)
      ++ optEntry "repository" ((optStr q "repository").map (fun r => JValue.str (jsTrim r)))
      ++ optEntry "liveUrl" ((optStr q "liveUrl").map (fun l => JValue.str (jsTrim l))))

/-- Modelled from the spec: the update path of the missing
routes/projects.js — whitelist the body, run the schema validators
(`runValidators: true`: a present-but-empty required field or an
out-of-enum status is rejected), apply the assignments to the stored
document, and let mongoose timestamps refresh `updatedAt` to the
mutation time. -/
def updateDoc (now : Nat) (p : Payload) (d : Doc) : Except DbError Doc :=
  let q := sanitize p
  match castCheck q with
  | some e => Except.error e
  | none =>
    if (optStr q "name").isSome ∧ jsTrim ((optStr q "name").getD "") = "" then
      Except.error (DbError.validationError "name")
    else if (optStr q "description").isSome ∧ jsTrim ((optStr q "description").getD "") = "" then
      Except.error (DbError.validationError "description")
    else if (optStr q "status").isSome ∧ statusEnum.contains ((optStr q "status").getD "") = false then
      Except.error (DbError.validationError "status")
    else
      Except.ok (setField (applySets d q) "updatedAt" (JValue.num now))

/-! ## Request pipeline -/

/-- The identifier of a stored document. -/
def docId (d : Doc) : Option String :=
  match lookupField d "_id" with
  | some (JValue.str s) => some s
  | _ => none

abbrev Store := List Doc

def findDoc (store : Store) (id : String) : Option Doc :=
  store.find? (fun d => docId d == some id)

/-- `isValidObjectId` from src/utils/index.js: the identifier must match
the regular expression accepting exactly 24 hexadecimal characters. -/
def isHexDigit (c : Char) : Bool :=
  (('0' ≤ c) && (c ≤ '9')) || (('a' ≤ c) && (c ≤ 'f')) || (('A' ≤ c) && (c ≤ 'F'))

def isValidObjectId (s : String) : Bool :=
  (s.length == 24) && s.data.all isHexDigit

/-- A shaped HTTP reply: status code and the envelope `success` flag. -/
structure ApiResponse where
  status : Nat
  success : Bool
deriving Repr, DecidableEq

/-- The five /api/projects routes. -/
inductive ProjectRoute
  | getAll
  | getById (id : String)
  | createR (p : Payload)
  | updateR (id : String) (p : Payload)
  | deleteR (id : String)
deriving Repr

/-- Storage operations a request may perform, for observing that gated
or short-circuited requests never reach the repository. -/
inductive RepoOp
  | find
  | findById (id : String)
  | createOp
  | findByIdAndUpdate (id : String)
  | findByIdAndDelete (id : String)
deriving Repr, DecidableEq

/-- Modelled from the spec: the CRUD handlers of the missing
routes/projects.js.  Each id-taking route validates the identifier
shape with `isValidObjectId` and replies 400 without any storage
operation on a malformed id; otherwise it performs its lookup/mutation,
replying 404 when no document matches, 400 on a validation failure, 200
on success (201 for create).  Returns the reply, the storage operations
performed, and the resulting store. -/
def runProjectHandler (now : Nat) (newId : String) (store : Store) :
    ProjectRoute → ApiResponse × List RepoOp × Store
  | ProjectRoute.getAll => (⟨200, true⟩, [RepoOp.find], store)
  | ProjectRoute.getById id =>
    if ¬ isValidObjectId id then (⟨400, false⟩, [], store)
    else
      match findDoc store id with
      | none => (⟨404, false⟩, [RepoOp.findById id], store)
      | some _ => (⟨200, true⟩, [RepoOp.findById id], store)
  | ProjectRoute.createR p =>
    match createDoc now newId p with
    | Except.ok d => (⟨201, true⟩, [RepoOp.createOp], store ++ [d])
    | Except.error _ => (⟨400, false⟩, [RepoOp.createOp], store)
  | ProjectRoute.updateR id p =>
    if ¬ isValidObjectId id then (⟨400, false⟩, [], store)
    else
      match findDoc store id with
      | none => (⟨404, false⟩, [RepoOp.findByIdAndUpdate id], store)
      | some d =>
        match updateDoc now p d with
        | Except.ok d2 =>
          (⟨200, true⟩, [RepoOp.findByIdAndUpdate id],
           store.map (fun e => if docId e == some id then d2 else e))
        | Except.error _ => (⟨400, false⟩, [RepoOp.findByIdAndUpdate id], store)
  | ProjectRoute.deleteR id =>
    if ¬ isValidObjectId id then (⟨400, false⟩, [], store)
    else
      match findDoc store id with
      | none => (⟨404, false⟩, [RepoOp.findByIdAndDelete id], store)
      | some _ =>
        (⟨200, true⟩, [RepoOp.findByIdAndDelete id],
         store.filter (fun e => ! (docId e == some id)))

/-- `checkDatabaseConnection` from src/middleware/index.js: when the
manager's flag is down, reply 503 with the `success: false` envelope
and do not call `next()`; otherwise pass through (`none`). -/
def checkDatabaseConnection (isConnected : Bool) : Option ApiResponse :=
  if !isConnected then some ⟨503, false⟩ else none

/-- `setupRoutes` in src/app.js mounts `checkDatabaseConnection` in
front of every /api/projects route: a gated request is answered by the
middleware and the route handler (hence the repository) never runs. -/
def handleProjectRequest (db : DBState) (now : Nat) (newId : String) (store : Store)
    (r : ProjectRoute) : ApiResponse × List RepoOp × Store :=
  match checkDatabaseConnection db.isConnected with
  | some resp => (resp, [], store)
  | none => runProjectHandler now newId store r

/-! ## Error mapping boundary -/

/-- A raw JavaScript error as seen by the global error middleware:
its `name` and (for driver errors) numeric `code`. -/
structure JsError where
  name : String
  code : Option Nat
deriving Repr, DecidableEq

/-- An error reply: status, envelope flag, message. -/
structure ErrorResponse where
  status : Nat
  success : Bool
  message : String
deriving Repr, DecidableEq

/-- `errorHandler` from src/middleware/index.js: ValidationError → 400,
CastError → 400, MongoError with code 11000 (duplicate key) → 400,
anything else → 500; every reply is a `success: false` envelope. -/
def errorHandler (e : JsError) : ErrorResponse :=
  if e.name = "ValidationError" then ⟨400, false, "Validation error"⟩
  else if e.name = "CastError" then ⟨400, false, "Invalid ID format"⟩
  else if e.name = "MongoError" ∧ e.code = some 11000 then ⟨400, false, "Duplicate field value"⟩
  else ⟨500, false, "Internal server error"⟩

/-- The failure taxonomy of the spec. -/
inductive FailureKind
  | validationFailure
  | notFound
  | storageUnavailable
  | duplicateKey
  | unknown
deriving Repr, DecidableEq

/-- The HTTP status each failure kind receives at the boundary, read off
the components that produce it: StorageUnavailable from the connection
gate, NotFound from the (spec-modelled) handler looking up a well-formed
identifier in an empty store, the remaining kinds from `errorHandler`.
The match is exhaustive over the taxonomy. -/
def boundaryStatus : FailureKind → Nat
  | FailureKind.validationFailure => (errorHandler ⟨"ValidationError", none⟩).status
  | FailureKind.notFound =>
    (runProjectHandler 0 "" [] (ProjectRoute.getById "aaaaaaaaaaaaaaaaaaaaaaaa")).1.status
  | FailureKind.storageUnavailable => ((checkDatabaseConnection false).getD ⟨200, true⟩).status
  | FailureKind.duplicateKey => (errorHandler ⟨"MongoError", some 11000⟩).status
  | FailureKind.unknown => (errorHandler ⟨"SomeDriverError", none⟩).status

/-! ## Sample data for concrete evaluations -/

/-- A creation body carrying an injected field outside the whitelist. -/
def hackedPayload : Payload :=
  [("name", JValue.str "a"), ("description", JValue.str "b"), ("hacked", JValue.str "x")]

/-- The document the create path stores for `hackedPayload`. -/
def hackedDoc : Doc :=
  [("_id", JValue.str "aaaaaaaaaaaaaaaaaaaaaaaa"),
   ("name", JValue.str "a"),
   ("description", JValue.str "b"),
   ("technologies", JValue.strList []),
   ("status", JValue.str "planning"),
   ("startDate", JValue.num 0),
   ("createdAt", JValue.num 0),
   ("updatedAt", JValue.num 0)]

/-- A stored Project document created at time 10. -/
def sampleDoc : Doc :=
  [("_id", JValue.str "aaaaaaaaaaaaaaaaaaaaaaaa"),
   ("name", JValue.str "P1"),
   ("description", JValue.str "D1"),
   ("technologies", JValue.strList []),
   ("status", JValue.str "planning"),
   ("startDate", JValue.num 10),
   ("createdAt", JValue.num 10),
   ("updatedAt", JValue.num 10)]

/-- A valid creation body: name needing a trim, description, no status. -/
def goodPayload : Payload :=
  [("name", JValue.str " P1 "), ("description", JValue.str "D1")]

/-- The document the create path stores for `goodPayload` at time 5. -/
def goodDoc : Doc :=
  [("_id", JValue.str "0123456789abcdef01234567"),
   ("name", JValue.str "P1"),
   ("description", JValue.str "D1"),
   ("technologies", JValue.strList []),
   ("status", JValue.str "planning"),
   ("startDate", JValue.num 5),
   ("createdAt", JValue.num 5),
   ("updatedAt", JValue.num 5)]

/-- The result of updating `sampleDoc` with status "completed" at time 11. -/
def sampleUpdatedDoc : Doc :=
  [("_id", JValue.str "aaaaaaaaaaaaaaaaaaaaaaaa"),
   ("name", JValue.str "P1"),
   ("description", JValue.str "D1"),
   ("technologies", JValue.strList []),
   ("status", JValue.str "completed"),
   ("startDate", JValue.num 10),
   ("createdAt", JValue.num 10),
   ("updatedAt", JValue.num 11)]

/-- Whether a repository operation succeeded. -/
def isOkE : Except DbError Doc → Bool
  | Except.ok _ => true
  | Except.error _ => false

/-! ## Helper lemmas on documents -/

theorem lookupField_none_of_all {l : Payload} {k : String}
    (h : ∀ kv ∈ l, kv.1 ≠ k) : lookupField l k = none := by
  induction l with
  | nil => rfl
  | cons kv rest ih =>
    have hk : kv.1 ≠ k := h kv (List.mem_cons_self kv rest)
    simp only [lookupField, if_neg hk]
    exact ih (fun e he => h e (List.mem_cons_of_mem kv he))

theorem mem_of_lookupField_some {l : Payload} {k : String} {v : JValue}
    (h : lookupField l k = some v) : (k, v) ∈ l := by
  induction l with
  | nil => simp [lookupField] at h
  | cons kv rest ih =>
    by_cases hk : kv.1 = k
    · simp only [lookupField, if_pos hk] at h
      have : kv = (k, v) := by
        cases kv
        simp_all
      rw [← this]
      exact List.mem_cons_self kv rest
    · simp only [lookupField, if_neg hk] at h
      exact List.mem_cons_of_mem kv (ih h)

theorem mem_sanitize_allowed {p : Payload} {kv : String × JValue}
    (h : kv ∈ sanitize p) : allowedFields.contains kv.1 = true := by
  have := List.of_mem_filter h
  simpa using this

theorem lookupField_sanitize_not_allowed (p : Payload) {k : String}
    (h : allowedFields.contains k = false) : lookupField (sanitize p) k = none := by
  refine lookupField_none_of_all (fun kv hkv hk => ?_)
  have hall := mem_sanitize_allowed hkv
  rw [hk] at hall
  rw [hall] at h
  exact absurd h (by decide)

theorem lookupField_setField_self (d : Doc) (k : String) (v : JValue) :
    lookupField (setField d k v) k = some v := by
  induction d with
  | nil => simp [setField, lookupField]
  | cons kv rest ih =>
    by_cases hk : kv.1 = k
    · simp [setField, if_pos hk, lookupField]
    · simp only [setField, if_neg hk, lookupField]
      exact ih

theorem lookupField_setField_ne (d : Doc) (k : String) (v : JValue) {k2 : String}
    (h : k2 ≠ k) : lookupField (setField d k v) k2 = lookupField d k2 := by
  induction d with
  | nil =>
    simp only [setField, lookupField]
    rw [if_neg (fun he : k = k2 => h he.symm)]
  | cons kv rest ih =>
    by_cases hk : kv.1 = k
    · simp only [setField, if_pos hk, lookupField]
      rw [if_neg (fun he : k = k2 => h he.symm), if_neg (fun he : kv.1 = k2 => h (he ▸ hk))]
    · simp only [setField, if_neg hk, lookupField]
      by_cases hk2 : kv.1 = k2
      · rw [if_pos hk2, if_pos hk2]
      · rw [if_neg hk2, if_neg hk2]
        exact ih

theorem lookupField_applySets_ne {q : Payload} {k : String} (d : Doc)
    (h : ∀ kv ∈ q, kv.1 ≠ k) : lookupField (applySets d q) k = lookupField d k := by
  induction q generalizing d with
  | nil => rfl
  | cons kv rest ih =>
    have hk : kv.1 ≠ k := h kv (List.mem_cons_self kv rest)
    simp only [applySets]
    rw [ih (setField d kv.1 kv.2) (fun e he => h e (List.mem_cons_of_mem kv he))]
    exact lookupField_setField_ne d kv.1 kv.2 (fun he => hk he.symm)

theorem mem_optEntry {k : String} {o : Option JValue} {kv : String × JValue}
    (h : kv ∈ optEntry k o) : kv.1 = k := by
  cases o with
  | none => simp [optEntry] at h
  | some v =>
    simp only [optEntry, List.mem_singleton] at h
    rw [h]

/-! ## Shape lemmas for the repository operations -/

theorem updateDoc_ok_shape {now : Nat} {p : Payload} {d d2 : Doc}
    (h : updateDoc now p d = Except.ok d2) :
    d2 = setField (applySets d (sanitize p)) "updatedAt" (JValue.num now) := by
  simp only [updateDoc] at h
  split at h
  · simp at h
  · split at h
    · simp at h
    · split at h
      · simp at h
      · split at h
        · simp at h
        · injection h with h
          exact h.symm

theorem createDoc_ok_mem {now : Nat} {newId : String} {p : Payload} {d : Doc}
    (h : createDoc now newId p = Except.ok d) :
    ∀ kv ∈ d, (allowedFields.contains kv.1 || systemFields.contains kv.1) = true := by
  simp only [createDoc] at h
  split at h
  · simp at h
  · split at h
    · simp at h
    · split at h
      · simp at h
      · split at h
        · simp at h
        · injection h with h
          subst h
          intro kv hkv
          rcases List.mem_append.mp hkv with hkv2 | h3
          · rcases List.mem_append.mp hkv2 with hkv3 | h2
            · rcases List.mem_append.mp hkv3 with h0 | h1
              · fin_cases h0 <;> rfl
              · rw [mem_optEntry h1]; decide
            · rw [mem_optEntry h2]; decide
          · rw [mem_optEntry h3]; decide

/-! ## Helper lemmas on the connection manager -/

theorem prodConfig_not_dev : prodConfig.isDevelopment = false := rfl

theorem failRun_stable (cfg : Config) (n : Nat)
    (h : (failRun cfg n).2.1 = false) : failRun cfg (n + 1) = failRun cfg n := by
  simp only [failRun]
  rw [h]
  simp

theorem failRun_prod_ge_six (k : Nat) :
    failRun prodConfig (6 + k) = failRun prodConfig 6 := by
  induction k with
  | zero => rfl
  | succ k ih =>
    have h : (failRun prodConfig (6 + k)).2.1 = false := by rw [ih]; decide
    have he : 6 + (k + 1) = (6 + k) + 1 := rfl
    rw [he, failRun_stable _ _ h, ih]

/-! ## Claim theorems -/

/-- C1: every request to an /api/projects route issued while the
connection flag is false is answered by the gate middleware with
HTTP 503 and a success:false envelope, performing no repository
operation and leaving the store untouched. -/
theorem projects_gate_returns_503 (db : DBState) (now : Nat) (newId : String)
    (store : Store) (r : ProjectRoute) (h : db.isConnected = false) :
    handleProjectRequest db now newId store r =
      (⟨503, false⟩, ([] : List RepoOp), store) := by
  simp [handleProjectRequest, checkDatabaseConnection, h]

theorem projects_gate_returns_503_witness :
    handleProjectRequest initialDBState 0 "x" [] ProjectRoute.getAll =
      (⟨503, false⟩, ([] : List RepoOp), ([] : Store)) :=
  projects_gate_returns_503 initialDBState 0 "x" [] ProjectRoute.getAll rfl

/-- C2: starting from a fresh manager, under any run of consecutive
connection failures the retry mechanism re-invokes connect at most 5
times (so at most 6 connect calls happen in total), every scheduled
retry uses the fixed 5000 ms delay, and from the 6th failure on (after
the 5th failed retry) no reconnection is pending any more. -/
theorem reconnection_attempts_bounded (n : Nat) (s : DBState) :
    (failRun prodConfig n).2.2 - 1 ≤ 5 ∧
    (6 ≤ n → (failRun prodConfig n).2.1 = false) ∧
    ((scheduleReconnection s).2 = none ∨ (scheduleReconnection s).2 = some 5000) := by
  have key : (failRun prodConfig n).2.2 ≤ 6 ∧
      (6 ≤ n → (failRun prodConfig n).2.1 = false) := by
    by_cases h : n ≤ 6
    · constructor
      · interval_cases n <;> decide
      · intro h6
        have he : n = 6 := le_antisymm h h6
        subst he
        decide
    · push_neg at h
      obtain ⟨k, rfl⟩ : ∃ k, n = 6 + k := ⟨n - 6, by omega⟩
      rw [failRun_prod_ge_six k]
      exact ⟨by decide, fun _ => by decide⟩
  refine ⟨by omega, key.2, ?_⟩
  unfold scheduleReconnection
  split
  · exact Or.inl rfl
  · exact Or.inr rfl

theorem reconnection_attempts_bounded_witness :
    (failRun prodConfig 6).2.2 - 1 ≤ 5 ∧ (failRun prodConfig 6).2.1 = false ∧
    ((scheduleReconnection initialDBState).2 = none ∨
     (scheduleReconnection initialDBState).2 = some 5000) :=
  ⟨(reconnection_attempts_bounded 6 initialDBState).1,
   (reconnection_attempts_bounded 6 initialDBState).2.1 (by decide),
   (reconnection_attempts_bounded 6 initialDBState).2.2⟩

/-- C3: connect never throws — it is a total function of the driver
outcome.  On failure it records state error with the flag down and
invokes the reconnection scheduler exactly when the configuration is
not development-like (in development it only logs: no scheduler, no
timer); on success the driver event records the connected state. -/
theorem connect_failure_behavior (cfg : Config) (s : DBState) :
    (connect cfg ConnectOutcome.failure s).state.isConnected = false ∧
    (connect cfg ConnectOutcome.failure s).state.connectionState = "error" ∧
    (connect cfg ConnectOutcome.failure s).schedulerInvoked = !cfg.isDevelopment ∧
    (cfg.isDevelopment = true → (connect cfg ConnectOutcome.failure s).retryTimer = none) ∧
    (connect cfg ConnectOutcome.success s).state =
      { isConnected := true, connectionState := "connected", connectionAttempts := 0 } := by
  have hsched : ∀ t : DBState, (scheduleReconnection t).1.isConnected = t.isConnected ∧
      (scheduleReconnection t).1.connectionState = t.connectionState := by
    intro t
    unfold scheduleReconnection
    split
    · exact ⟨rfl, rfl⟩
    · exact ⟨rfl, rfl⟩
  cases hd : cfg.isDevelopment
  · refine ⟨?_, ?_, ?_, ?_, rfl⟩
    · simp only [connect, hd, Bool.false_eq_true, if_false]
      exact (hsched _).1
    · simp only [connect, hd, Bool.false_eq_true, if_false]
      exact (hsched _).2
    · simp only [connect, hd, Bool.false_eq_true, if_false]
      rfl
    · intro hcontra
      exact absurd hcontra (by decide)
  · refine ⟨?_, ?_, ?_, fun _ => ?_, rfl⟩ <;> simp [connect, hd]

theorem connect_failure_behavior_witness :
    (connect devConfig ConnectOutcome.failure initialDBState).retryTimer = none ∧
    (connect devConfig ConnectOutcome.failure initialDBState).state.connectionState = "error" :=
  ⟨(connect_failure_behavior devConfig initialDBState).2.2.2.1 rfl,
   (connect_failure_behavior devConfig initialDBState).2.1⟩

/-- C4 counterexample: when the driver's close call fails, disconnect
swallows the error but assigns nothing, so from a connected state the
manager is left neither in the disconnected state nor with the flag
down — refuting the claim that disconnect always ends disconnected. -/
theorem disconnect_close_error_counterexample :
    ¬ ((disconnect devConfig CloseOutcome.err ⟨true, "connected", 0⟩).1.connectionState
         = "disconnected" ∧
       (disconnect devConfig CloseOutcome.err ⟨true, "connected", 0⟩).1.isConnected = false) := by
  decide

/-- C4 amended: disconnect never throws — a close error is swallowed
(logged only) and leaves the state exactly as it was; when the close
succeeds, the driver's disconnected event leaves the manager
disconnected with the flag down from every starting state, and a
repeated successful disconnect again ends disconnected with the flag
down. -/
theorem disconnect_amended_behavior (cfg : Config) (s : DBState) :
    (disconnect cfg CloseOutcome.err s).1 = s ∧
    (disconnect cfg CloseOutcome.ok s).1.isConnected = false ∧
    (disconnect cfg CloseOutcome.ok s).1.connectionState = "disconnected" ∧
    (disconnect cfg CloseOutcome.ok ((disconnect cfg CloseOutcome.ok s).1)).1.isConnected
      = false ∧
    (disconnect cfg CloseOutcome.ok ((disconnect cfg CloseOutcome.ok s).1)).1.connectionState
      = "disconnected" := by
  have hbase : ∀ t : DBState, (disconnect cfg CloseOutcome.ok t).1.isConnected = false ∧
      (disconnect cfg CloseOutcome.ok t).1.connectionState = "disconnected" := by
    intro t
    show (onDisconnectedEvent cfg t).1.isConnected = false ∧
      (onDisconnectedEvent cfg t).1.connectionState = "disconnected"
    simp only [onDisconnectedEvent, scheduleReconnection]
    split
    · split
      · exact ⟨rfl, rfl⟩
      · exact ⟨rfl, rfl⟩
    · exact ⟨rfl, rfl⟩
  exact ⟨rfl, (hbase s).1, (hbase s).2, (hbase _).1, (hbase _).2⟩

/-- C10: the GET /health handler replies 200 with a success:true body
for every connection state — the connection flag, health probe result
and textual state are reported inside the body — and a non-200 (500)
reply happens only when building the report itself throws. -/
theorem health_endpoint_always_200 (s : DBState) (pingOk : Bool) :
    healthHandler s pingOk false =
      ⟨200, true, some ⟨s.isConnected, isHealthy s pingOk, s.connectionState⟩⟩ ∧
    (∀ b : Bool, (healthHandler s pingOk b).status ≠ 200 → b = true) := by
  constructor
  · rfl
  · intro b hb
    cases b
    · exact absurd rfl hb
    · rfl

theorem health_endpoint_always_200_witness :
    healthHandler ⟨false, "error", 3⟩ false false =
      ⟨200, true, some ⟨false, false, "error"⟩⟩ ∧ (true = true) :=
  ⟨(health_endpoint_always_200 ⟨false, "error", 3⟩ false).1,
   (health_endpoint_always_200 ⟨false, "error", 3⟩ false).2 true (by decide)⟩

/-- C5: the boundary maps the failure taxonomy exhaustively —
ValidationFailure → 400, NotFound → 404 (via the spec-modelled
handler), StorageUnavailable → 503 (via the gate), DuplicateKey → 400,
uncategorized → 500 — and every error object reaching the global
errorHandler receives a definite success:false envelope, so no raw
driver error escapes uncategorized to the HTTP boundary. -/
theorem error_mapping_boundary :
    boundaryStatus FailureKind.validationFailure = 400 ∧
    boundaryStatus FailureKind.notFound = 404 ∧
    boundaryStatus FailureKind.storageUnavailable = 503 ∧
    boundaryStatus FailureKind.duplicateKey = 400 ∧
    boundaryStatus FailureKind.unknown = 500 ∧
    (∀ e : JsError, (errorHandler e).success = false) ∧
    (∀ e : JsError, e.name ≠ "ValidationError" → e.name ≠ "CastError" →
      ¬(e.name = "MongoError" ∧ e.code = some 11000) →
      errorHandler e = ⟨500, false, "Internal server error"⟩) := by
  refine ⟨rfl, rfl, rfl, rfl, rfl, ?_, ?_⟩
  · intro e
    unfold errorHandler
    split
    · rfl
    · split
      · rfl
      · split
        · rfl
        · rfl
  · intro e h1 h2 h3
    unfold errorHandler
    rw [if_neg h1, if_neg h2, if_neg h3]

theorem error_mapping_boundary_witness :
    errorHandler ⟨"MongoNetworkError", none⟩ = ⟨500, false, "Internal server error"⟩ ∧
    (errorHandler ⟨"MongoNetworkError", none⟩).success = false :=
  ⟨error_mapping_boundary.2.2.2.2.2.2 ⟨"MongoNetworkError", none⟩ (by decide) (by decide)
     (by decide),
   error_mapping_boundary.2.2.2.2.2.1 ⟨"MongoNetworkError", none⟩⟩

/-- C6 counterexample: a creation payload whose name and description
are non-empty after trimming but whose status lies outside the four
enumerated values is rejected by the schema validator, so create does
not succeed for every payload with non-empty name and description. -/
theorem create_invalid_status_counterexample :
    jsTrim "a" ≠ "" ∧ jsTrim "b" ≠ "" ∧
    createDoc 0 "aaaaaaaaaaaaaaaaaaaaaaaa"
      [("name", JValue.str "a"), ("description", JValue.str "b"),
       ("status", JValue.str "bogus")]
      = Except.error (DbError.validationError "status") :=
  ⟨by decide, by decide, rfl⟩

/-- C6 amended: for every creation payload whose fields are well-typed
for the schema, whose name and description are non-empty after
trimming and whose status — when present — is one of the enumerated
values, create succeeds and the stored record carries the
system-assigned id, createdAt equal to updatedAt, status "planning"
when status was omitted and the empty technologies list when that
field was omitted. -/
theorem create_valid_payload_defaults (now : Nat) (newId : String) (p : Payload)
    (hcast : castCheck (sanitize p) = none)
    (hname : jsTrim ((optStr (sanitize p) "name").getD "") ≠ "")
    (hdesc : jsTrim ((optStr (sanitize p) "description").getD "") ≠ "")
    (hstat : statusEnum.contains ((optStr (sanitize p) "status").getD "planning") = true) :
    isOkE (createDoc now newId p) = true ∧
    ∀ d, createDoc now newId p = Except.ok d →
      lookupField d "_id" = some (JValue.str newId) ∧
      lookupField d "createdAt" = some (JValue.num now) ∧
      lookupField d "updatedAt" = some (JValue.num now) ∧
      (lookupField (sanitize p) "status" = none →
        lookupField d "status" = some (JValue.str "planning")) ∧
      (lookupField (sanitize p) "technologies" = none →
        lookupField d "technologies" = some (JValue.strList [])) := by
  simp only [createDoc, hcast]
  rw [if_neg hname, if_neg hdesc, if_neg (by rw [hstat]; decide)]
  constructor
  · rfl
  · intro d hd
    injection hd with hd
    subst hd
    refine ⟨rfl, rfl, rfl, ?_, ?_⟩
    · intro h
      have hs : optStr (sanitize p) "status" = none := by simp only [optStr, h]
      rw [hs]
      rfl
    · intro h
      have hs : optStrList (sanitize p) "technologies" = none := by
        simp only [optStrList, h]
      rw [hs]
      rfl

theorem create_valid_payload_defaults_witness :
    isOkE (createDoc 5 "0123456789abcdef01234567" goodPayload) = true ∧
    lookupField goodDoc "status" = some (JValue.str "planning") :=
  ⟨(create_valid_payload_defaults 5 "0123456789abcdef01234567" goodPayload
      (by decide) (by decide) (by decide) (by decide)).1,
   ((create_valid_payload_defaults 5 "0123456789abcdef01234567" goodPayload
      (by decide) (by decide) (by decide) (by decide)).2 goodDoc rfl).2.2.2.1 rfl⟩

/-- C7: any create or update field outside the whitelist is dropped by
the sanitiser before the repository is invoked, a created record holds
only whitelisted and system-managed fields, and an update never
introduces a non-whitelisted field into the stored record. -/
theorem whitelist_drops_unknown_fields :
    (∀ (p : Payload) (k : String), allowedFields.contains k = false →
      lookupField (sanitize p) k = none) ∧
    (∀ (now : Nat) (newId : String) (p : Payload) (d : Doc),
      createDoc now newId p = Except.ok d →
      ∀ k, allowedFields.contains k = false → systemFields.contains k = false →
        lookupField d k = none) ∧
    (∀ (now : Nat) (p2 : Payload) (d d2 : Doc),
      updateDoc now p2 d = Except.ok d2 →
      ∀ k, allowedFields.contains k = false → systemFields.contains k = false →
        lookupField d k = none → lookupField d2 k = none) := by
  refine ⟨?_, ?_, ?_⟩
  · intro p k hk
    exact lookupField_sanitize_not_allowed p hk
  · intro now newId p d h k hka hks
    refine lookupField_none_of_all (fun kv hkv he => ?_)
    have hmem := createDoc_ok_mem h kv hkv
    rw [he, hka, hks] at hmem
    exact absurd hmem (by decide)
  · intro now p2 d d2 h k hka hks hnone
    rw [updateDoc_ok_shape h]
    have hkupd : k ≠ "updatedAt" := by
      intro he
      rw [he] at hks
      exact absurd hks (by decide)
    have hfr : lookupField (applySets d (sanitize p2)) k = lookupField d k :=
      lookupField_applySets_ne d (fun kv hkv he => by
        have hall := mem_sanitize_allowed hkv
        rw [he] at hall
        rw [hall] at hka
        exact absurd hka (by decide))
    rw [lookupField_setField_ne _ _ _ hkupd, hfr]
    exact hnone

theorem whitelist_drops_unknown_fields_witness :
    createDoc 0 "aaaaaaaaaaaaaaaaaaaaaaaa" hackedPayload = Except.ok hackedDoc ∧
    lookupField hackedDoc "hacked" = none :=
  ⟨rfl, whitelist_drops_unknown_fields.2.1 0 "aaaaaaaaaaaaaaaaaaaaaaaa" hackedPayload
    hackedDoc rfl "hacked" (by decide) (by decide)⟩

/-- C8: updating an existing record with status "completed" at a
strictly later clock succeeds; afterwards updatedAt equals the new
strictly larger time, createdAt is unchanged, every field not
mentioned in the update is unchanged, updatedAt ≥ createdAt is
preserved, and no update whatsoever changes createdAt. -/
theorem update_status_frame (now c u : Nat) (d : Doc)
    (hc : lookupField d "createdAt" = some (JValue.num c))
    (hu : lookupField d "updatedAt" = some (JValue.num u))
    (hcu : c ≤ u) (hclock : u < now) :
    isOkE (updateDoc now [("status", JValue.str "completed")] d) = true ∧
    (∀ d2, updateDoc now [("status", JValue.str "completed")] d = Except.ok d2 →
      lookupField d2 "updatedAt" = some (JValue.num now) ∧ u < now ∧
      lookupField d2 "createdAt" = some (JValue.num c) ∧ c ≤ now ∧
      (∀ k, k ≠ "status" → k ≠ "updatedAt" → lookupField d2 k = lookupField d k)) ∧
    (∀ (p2 : Payload) (d3 : Doc), updateDoc now p2 d = Except.ok d3 →
      lookupField d3 "createdAt" = lookupField d "createdAt") := by
  refine ⟨rfl, ?_, ?_⟩
  · intro d2 h2
    rw [updateDoc_ok_shape h2]
    have hone : ∀ kk : String, kk ≠ "status" →
        lookupField (applySets d (sanitize [("status", JValue.str "completed")])) kk =
          lookupField d kk := by
      intro kk hkk
      refine lookupField_applySets_ne d (fun kv hkv he => ?_)
      have hv : kv = ("status", JValue.str "completed") := by
        simpa [sanitize, allowedFields] using hkv
      rw [hv] at he
      exact hkk he.symm
    refine ⟨lookupField_setField_self _ _ _, hclock, ?_, by omega, ?_⟩
    · rw [lookupField_setField_ne _ _ _ (by decide : "createdAt" ≠ "updatedAt"),
        hone "createdAt" (by decide)]
      exact hc
    · intro k hk1 hk2
      rw [lookupField_setField_ne _ _ _ hk2, hone k hk1]
  · intro p2 d3 h3
    rw [updateDoc_ok_shape h3]
    rw [lookupField_setField_ne _ _ _ (by decide : "createdAt" ≠ "updatedAt")]
    refine lookupField_applySets_ne d (fun kv hkv he => ?_)
    have hall := mem_sanitize_allowed hkv
    rw [he] at hall
    exact absurd hall (by decide)

theorem update_status_frame_witness :
    updateDoc 11 [("status", JValue.str "completed")] sampleDoc =
      Except.ok sampleUpdatedDoc ∧
    lookupField sampleUpdatedDoc "updatedAt" = some (JValue.num 11) ∧
    lookupField sampleUpdatedDoc "createdAt" = some (JValue.num 10) :=
  ⟨rfl,
   ((update_status_frame 11 10 10 sampleDoc rfl rfl (by decide) (by decide)).2.1
      sampleUpdatedDoc rfl).1,
   ((update_status_frame 11 10 10 sampleDoc rfl rfl (by decide) (by decide)).2.1
      sampleUpdatedDoc rfl).2.2.1⟩

/-- C9: while connected, any id-taking Project route whose :id segment
is not a 24-hexadecimal-character string short-circuits with a 400
validation reply and performs no storage operation; an identifier of
the right shape proceeds to the corresponding storage lookup. -/
theorem objectid_validation_short_circuit (db : DBState) (now : Nat) (newId : String)
    (store : Store) (id : String) (p : Payload) (hconn : db.isConnected = true) :
    (isValidObjectId id = false →
      handleProjectRequest db now newId store (ProjectRoute.getById id) =
        (⟨400, false⟩, ([] : List RepoOp), store) ∧
      handleProjectRequest db now newId store (ProjectRoute.updateR id p) =
        (⟨400, false⟩, ([] : List RepoOp), store) ∧
      handleProjectRequest db now newId store (ProjectRoute.deleteR id) =
        (⟨400, false⟩, ([] : List RepoOp), store)) ∧
    (isValidObjectId id = true →
      (handleProjectRequest db now newId store (ProjectRoute.getById id)).2.1 =
        [RepoOp.findById id] ∧
      (handleProjectRequest db now newId store (ProjectRoute.updateR id p)).2.1 =
        [RepoOp.findByIdAndUpdate id] ∧
      (handleProjectRequest db now newId store (ProjectRoute.deleteR id)).2.1 =
        [RepoOp.findByIdAndDelete id]) := by
  have hgate : checkDatabaseConnection db.isConnected = none := by
    rw [hconn]
    rfl
  constructor
  · intro hbad
    refine ⟨?_, ?_, ?_⟩ <;>
      simp [handleProjectRequest, hgate, runProjectHandler, hbad]
  · intro hgood
    refine ⟨?_, ?_, ?_⟩
    · cases hf : findDoc store id <;>
        simp [handleProjectRequest, hgate, runProjectHandler, hgood, hf]
    · rcases hf : findDoc store id with _ | dfound
      · simp [handleProjectRequest, hgate, runProjectHandler, hgood, hf]
      · cases hup : updateDoc now p dfound <;>
          simp [handleProjectRequest, hgate, runProjectHandler, hgood, hf, hup]
    · cases hf : findDoc store id <;>
        simp [handleProjectRequest, hgate, runProjectHandler, hgood, hf]

theorem objectid_validation_short_circuit_witness :
    handleProjectRequest ⟨true, "connected", 0⟩ 0 "x" [] (ProjectRoute.getById "zz") =
      (⟨400, false⟩, ([] : List RepoOp), ([] : Store)) ∧
    (handleProjectRequest ⟨true, "connected", 0⟩ 0 "x" []
      (ProjectRoute.getById "0123456789abcdef01234567")).2.1 =
      [RepoOp.findById "0123456789abcdef01234567"] :=
  ⟨((objectid_validation_short_circuit ⟨true, "connected", 0⟩ 0 "x" [] "zz" [] rfl).1
      (by decide)).1,
   ((objectid_validation_short_circuit ⟨true, "connected", 0⟩ 0 "x" []
      "0123456789abcdef01234567" [] rfl).2 (by decide)).1⟩

end RenderAPIs
